import Mathlib

/-!
Verification of the study-cost calculator core (cash-flow projection engine).

The embedding models the Python modules `city_database.py` and `calculator.py`.
Real-valued quantities are modelled as exact rationals (`ℚ`); Python's
`round(x, 2)` (round-half-to-even to two decimal places) is modelled by
`round2` below.  Fallible constructors return `Except PyExc`.
-/

attribute [local semireducible] Rat.mul Rat.add Rat.sub Rat.inv Rat.ofScientific

/-- Round-half-to-even to the nearest integer, as Python's builtin `round`
does on exact values. -/
def roundHalfEven (q : ℚ) : ℤ :=
  if q - ⌊q⌋ < 1/2 then ⌊q⌋
  else if 1/2 < q - ⌊q⌋ then ⌊q⌋ + 1
  else if ⌊q⌋ % 2 = 0 then ⌊q⌋ else ⌊q⌋ + 1

/-- Python's `round(x, 2)`: round to two decimal places, ties to even. -/
def round2 (q : ℚ) : ℚ :=
  (roundHalfEven (100 * q) : ℚ) / 100

/-- Predicate: `q` is an exact whole number of hundredths (cents). -/
def centMult (q : ℚ) : Prop :=
  (100 * q).den = 1

instance (q : ℚ) : Decidable (centMult q) := by
  unfold centMult
  infer_instance

/-- Cost-of-living record for one city (`city_database.CostData`). -/
structure CostData where
  rent_single : ℚ
  rent_shared : ℚ
  rent_dorm : ℚ
  living_cost : ℚ
  currency : String
  sources : List String
deriving DecidableEq

/-- Embeds `city_database.GLOBAL_CITY_DATABASE` as an insertion-ordered
association list country ↦ (city ↦ CostData). -/
def GLOBAL_CITY_DATABASE : List (String × List (String × CostData)) :=
  [("葡萄牙",
    [("里斯本",
      { rent_single := 400
        rent_shared := 250
        rent_dorm := 300
        living_cost := 350
        currency := "EUR"
        sources := ["Numbeo 2024 - Cost of Living in Lisbon",
                    "葡萄牙国家统计局 - 2024年住房成本报告",
                    "Expatistan - Lisbon Living Costs"] }),
     ("波尔图",
      { rent_single := 350
        rent_shared := 220
        rent_dorm := 280
        living_cost := 320
        currency := "EUR"
        sources := ["Numbeo 2024 - Cost of Living in Porto",
                    "葡萄牙国家统计局 - 2024年住房成本报告"] }),
     ("科英布拉",
      { rent_single := 300
        rent_shared := 200
        rent_dorm := 250
        living_cost := 280
        currency := "EUR"
        sources := ["Numbeo 2024 - Cost of Living in Coimbra",
                    "科英布拉大学官方数据"] }),
     ("阿威罗",
      { rent_single := 320
        rent_shared := 200
        rent_dorm := 260
        living_cost := 290
        currency := "EUR"
        sources := ["Numbeo 2024 - Cost of Living in Aveiro",
                    "葡萄牙国家统计局 - 2024年住房成本报告",
                    "阿威罗大学官方数据"] })]),
   ("英国",
    [("伦敦",
      { rent_single := 1200
        rent_shared := 800
        rent_dorm := 900
        living_cost := 1000
        currency := "GBP"
        sources := ["Numbeo 2024 - Cost of Living in London",
                    "英国国家统计局 - 2024年住房成本",
                    "Expatistan - London Living Costs",
                    "Rightmove - 2024年租金报告"] }),
     ("曼彻斯特",
      { rent_single := 600
        rent_shared := 400
        rent_dorm := 500
        living_cost := 600
        currency := "GBP"
        sources := ["Numbeo 2024 - Cost of Living in Manchester",
                    "曼彻斯特大学官方数据"] }),
     ("爱丁堡",
      { rent_single := 700
        rent_shared := 500
        rent_dorm := 600
        living_cost := 650
        currency := "GBP"
        sources := ["Numbeo 2024 - Cost of Living in Edinburgh",
                    "爱丁堡大学官方数据"] }),
     ("伯明翰",
      { rent_single := 550
        rent_shared := 380
        rent_dorm := 450
        living_cost := 550
        currency := "GBP"
        sources := ["Numbeo 2024 - Cost of Living in Birmingham",
                    "伯明翰大学官方数据"] })]),
   ("美国",
    [("纽约",
      { rent_single := 2500
        rent_shared := 1500
        rent_dorm := 1800
        living_cost := 1200
        currency := "USD"
        sources := ["Numbeo 2024 - Cost of Living in New York",
                    "美国劳工统计局 - 2024年生活成本数据",
                    "Zillow - 2024年纽约租金报告",
                    "Expatistan - New York Living Costs"] }),
     ("洛杉矶",
      { rent_single := 2200
        rent_shared := 1300
        rent_dorm := 1600
        living_cost := 1100
        currency := "USD"
        sources := ["Numbeo 2024 - Cost of Living in Los Angeles",
                    "美国劳工统计局 - 2024年生活成本数据",
                    "Zillow - 2024年洛杉矶租金报告"] }),
     ("波士顿",
      { rent_single := 2000
        rent_shared := 1200
        rent_dorm := 1500
        living_cost := 1000
        currency := "USD"
        sources := ["Numbeo 2024 - Cost of Living in Boston",
                    "波士顿大学官方数据",
                    "Zillow - 2024年波士顿租金报告"] }),
     ("芝加哥",
      { rent_single := 1500
        rent_shared := 900
        rent_dorm := 1100
        living_cost := 900
        currency := "USD"
        sources := ["Numbeo 2024 - Cost of Living in Chicago",
                    "芝加哥大学官方数据"] }),
     ("旧金山",
      { rent_single := 2800
        rent_shared := 1700
        rent_dorm := 2000
        living_cost := 1300
        currency := "USD"
        sources := ["Numbeo 2024 - Cost of Living in San Francisco",
                    "Zillow - 2024年旧金山租金报告"] })]),
   ("加拿大",
    [("多伦多",
      { rent_single := 1800
        rent_shared := 1100
        rent_dorm := 1400
        living_cost := 900
        currency := "CAD"
        sources := ["Numbeo 2024 - Cost of Living in Toronto",
                    "加拿大统计局 - 2024年住房成本",
                    "Expatistan - Toronto Living Costs"] }),
     ("温哥华",
      { rent_single := 2000
        rent_shared := 1200
        rent_dorm := 1500
        living_cost := 950
        currency := "CAD"
        sources := ["Numbeo 2024 - Cost of Living in Vancouver",
                    "加拿大统计局 - 2024年住房成本"] }),
     ("蒙特利尔",
      { rent_single := 1200
        rent_shared := 700
        rent_dorm := 900
        living_cost := 750
        currency := "CAD"
        sources := ["Numbeo 2024 - Cost of Living in Montreal",
                    "麦吉尔大学官方数据"] })]),
   ("澳大利亚",
    [("悉尼",
      { rent_single := 2000
        rent_shared := 1200
        rent_dorm := 1500
        living_cost := 1200
        currency := "AUD"
        sources := ["Numbeo 2024 - Cost of Living in Sydney",
                    "澳大利亚统计局 - 2024年生活成本",
                    "Expatistan - Sydney Living Costs"] }),
     ("墨尔本",
      { rent_single := 1600
        rent_shared := 950
        rent_dorm := 1200
        living_cost := 1000
        currency := "AUD"
        sources := ["Numbeo 2024 - Cost of Living in Melbourne",
                    "澳大利亚统计局 - 2024年生活成本"] }),
     ("布里斯班",
      { rent_single := 1400
        rent_shared := 850
        rent_dorm := 1100
        living_cost := 900
        currency := "AUD"
        sources := ["Numbeo 2024 - Cost of Living in Brisbane",
                    "昆士兰大学官方数据"] })]),
   ("德国",
    [("柏林",
      { rent_single := 800
        rent_shared := 500
        rent_dorm := 600
        living_cost := 600
        currency := "EUR"
        sources := ["Numbeo 2024 - Cost of Living in Berlin",
                    "德国联邦统计局 - 2024年住房成本",
                    "Expatistan - Berlin Living Costs"] }),
     ("慕尼黑",
      { rent_single := 1000
        rent_shared := 650
        rent_dorm := 750
        living_cost := 700
        currency := "EUR"
        sources := ["Numbeo 2024 - Cost of Living in Munich",
                    "德国联邦统计局 - 2024年住房成本"] }),
     ("汉堡",
      { rent_single := 750
        rent_shared := 480
        rent_dorm := 580
        living_cost := 580
        currency := "EUR"
        sources := ["Numbeo 2024 - Cost of Living in Hamburg",
                    "汉堡大学官方数据"] })]),
   ("法国",
    [("巴黎",
      { rent_single := 900
        rent_shared := 600
        rent_dorm := 700
        living_cost := 700
        currency := "EUR"
        sources := ["Numbeo 2024 - Cost of Living in Paris",
                    "法国国家统计局 - 2024年住房成本",
                    "Expatistan - Paris Living Costs"] }),
     ("里昂",
      { rent_single := 600
        rent_shared := 400
        rent_dorm := 500
        living_cost := 550
        currency := "EUR"
        sources := ["Numbeo 2024 - Cost of Living in Lyon",
                    "里昂大学官方数据"] })]),
   ("意大利",
    [("罗马",
      { rent_single := 700
        rent_shared := 450
        rent_dorm := 550
        living_cost := 600
        currency := "EUR"
        sources := ["Numbeo 2024 - Cost of Living in Rome",
                    "意大利国家统计局 - 2024年住房成本"] }),
     ("米兰",
      { rent_single := 800
        rent_shared := 500
        rent_dorm := 600
        living_cost := 650
        currency := "EUR"
        sources := ["Numbeo 2024 - Cost of Living in Milan",
                    "米兰大学官方数据"] })]),
   ("西班牙",
    [("马德里",
      { rent_single := 700
        rent_shared := 450
        rent_dorm := 550
        living_cost := 600
        currency := "EUR"
        sources := ["Numbeo 2024 - Cost of Living in Madrid",
                    "西班牙国家统计局 - 2024年住房成本",
                    "Expatistan - Madrid Living Costs"] }),
     ("巴塞罗那",
      { rent_single := 750
        rent_shared := 480
        rent_dorm := 580
        living_cost := 620
        currency := "EUR"
        sources := ["Numbeo 2024 - Cost of Living in Barcelona",
                    "西班牙国家统计局 - 2024年住房成本"] })]),
   ("荷兰",
    [("阿姆斯特丹",
      { rent_single := 1200
        rent_shared := 750
        rent_dorm := 900
        living_cost := 700
        currency := "EUR"
        sources := ["Numbeo 2024 - Cost of Living in Amsterdam",
                    "荷兰中央统计局 - 2024年住房成本",
                    "Expatistan - Amsterdam Living Costs"] }),
     ("鹿特丹",
      { rent_single := 900
        rent_shared := 600
        rent_dorm := 700
        living_cost := 650
        currency := "EUR"
        sources := ["Numbeo 2024 - Cost of Living in Rotterdam",
                    "鹿特丹大学官方数据"] })]),
   ("日本",
    [("东京",
      { rent_single := 90000
        rent_shared := 60000
        rent_dorm := 75000
        living_cost := 80000
        currency := "JPY"
        sources := ["Numbeo 2024 - Cost of Living in Tokyo",
                    "日本总务省统计局 - 2024年生活成本",
                    "Expatistan - Tokyo Living Costs"] }),
     ("大阪",
      { rent_single := 70000
        rent_shared := 45000
        rent_dorm := 60000
        living_cost := 65000
        currency := "JPY"
        sources := ["Numbeo 2024 - Cost of Living in Osaka",
                    "日本总务省统计局 - 2024年生活成本"] }),
     ("京都",
      { rent_single := 65000
        rent_shared := 40000
        rent_dorm := 55000
        living_cost := 60000
        currency := "JPY"
        sources := ["Numbeo 2024 - Cost of Living in Kyoto",
                    "京都大学官方数据"] })]),
   ("韩国",
    [("首尔",
      { rent_single := 800000
        rent_shared := 500000
        rent_dorm := 650000
        living_cost := 700000
        currency := "KRW"
        sources := ["Numbeo 2024 - Cost of Living in Seoul",
                    "韩国统计厅 - 2024年生活成本",
                    "Expatistan - Seoul Living Costs"] }),
     ("釜山",
      { rent_single := 600000
        rent_shared := 380000
        rent_dorm := 500000
        living_cost := 550000
        currency := "KRW"
        sources := ["Numbeo 2024 - Cost of Living in Busan",
                    "釜山大学官方数据"] })]),
   ("新加坡",
    [("新加坡",
      { rent_single := 1500
        rent_shared := 900
        rent_dorm := 1100
        living_cost := 800
        currency := "SGD"
        sources := ["Numbeo 2024 - Cost of Living in Singapore",
                    "新加坡统计局 - 2024年生活成本",
                    "Expatistan - Singapore Living Costs"] })]),
   ("新西兰",
    [("奥克兰",
      { rent_single := 1500
        rent_shared := 900
        rent_dorm := 1100
        living_cost := 1000
        currency := "NZD"
        sources := ["Numbeo 2024 - Cost of Living in Auckland",
                    "新西兰统计局 - 2024年住房成本"] }),
     ("惠灵顿",
      { rent_single := 1400
        rent_shared := 850
        rent_dorm := 1050
        living_cost := 950
        currency := "NZD"
        sources := ["Numbeo 2024 - Cost of Living in Wellington",
                    "新西兰统计局 - 2024年住房成本"] })]),
   ("瑞士",
    [("苏黎世",
      { rent_single := 1500
        rent_shared := 1000
        rent_dorm := 1200
        living_cost := 1000
        currency := "CHF"
        sources := ["Numbeo 2024 - Cost of Living in Zurich",
                    "瑞士联邦统计局 - 2024年生活成本",
                    "Expatistan - Zurich Living Costs"] }),
     ("日内瓦",
      { rent_single := 1600
        rent_shared := 1100
        rent_dorm := 1300
        living_cost := 1050
        currency := "CHF"
        sources := ["Numbeo 2024 - Cost of Living in Geneva",
                    "瑞士联邦统计局 - 2024年生活成本"] })]),
   ("瑞典",
    [("斯德哥尔摩",
      { rent_single := 900
        rent_shared := 600
        rent_dorm := 700
        living_cost := 700
        currency := "SEK"
        sources := ["Numbeo 2024 - Cost of Living in Stockholm",
                    "瑞典统计局 - 2024年住房成本"] })]),
   ("丹麦",
    [("哥本哈根",
      { rent_single := 1000
        rent_shared := 650
        rent_dorm := 800
        living_cost := 800
        currency := "DKK"
        sources := ["Numbeo 2024 - Cost of Living in Copenhagen",
                    "丹麦统计局 - 2024年住房成本",
                    "Expatistan - Copenhagen Living Costs"] })]),
   ("挪威",
    [("奥斯陆",
      { rent_single := 1100
        rent_shared := 700
        rent_dorm := 850
        living_cost := 900
        currency := "NOK"
        sources := ["Numbeo 2024 - Cost of Living in Oslo",
                    "挪威统计局 - 2024年住房成本"] })])]

/-- Lexicographic comparison of character lists by code point, the order
Python's `sorted` uses on strings. -/
def charListLe : List Char → List Char → Bool
  | [], _ => true
  | _ :: _, [] => false
  | x :: xs, y :: ys =>
    if x < y then true
    else if y < x then false
    else charListLe xs ys

/-- Code-point order on strings (executable; proved below to agree with
the order `≤` on `String`). -/
def strLe (a b : String) : Bool :=
  charListLe a.data b.data

/-- The comparator `strLe` as a relation, for use with `List.insertionSort`. -/
def strLeRel (a b : String) : Prop :=
  strLe a b = true

instance : DecidableRel strLeRel := by
  unfold strLeRel
  infer_instance

/-- Embeds `city_database.get_countries`: sorted list of supported countries. -/
def get_countries : List String :=
  List.insertionSort strLeRel (GLOBAL_CITY_DATABASE.map Prod.fst)

/-- Embeds `city_database.get_cities`: sorted city list for a country, `[]` when
the country is unknown. -/
def get_cities (country : String) : List String :=
  match GLOBAL_CITY_DATABASE.find? (fun p => p.1 == country) with
  | none => []
  | some p => List.insertionSort strLeRel (p.2.map Prod.fst)

/-- Embeds `city_database.get_city_data`: look up the cost record of a city. -/
def get_city_data (country city : String) : Option CostData :=
  match GLOBAL_CITY_DATABASE.find? (fun p => p.1 == country) with
  | none => none
  | some p =>
    match p.2.find? (fun q => q.1 == city) with
    | none => none
    | some q => some q.2

/-- Embeds `city_database.get_rent_by_type`: rent of the requested housing type. -/
def get_rent_by_type (country city rent_type : String) : Option ℚ :=
  match get_city_data country city with
  | none => none
  | some data =>
    if rent_type = "单间" then some data.rent_single
    else if rent_type = "合租" then some data.rent_shared
    else if rent_type = "宿舍" then some data.rent_dorm
    else none

/-- Embeds `city_database.get_currency_symbol`: display symbol of a currency code,
falling back to the code itself. -/
def get_currency_symbol (currency_code : String) : String :=
  let currency_symbols : List (String × String) :=
    [("EUR", "€"), ("GBP", "£"), ("USD", "$"), ("CAD", "C$"),
     ("AUD", "A$"), ("JPY", "¥"), ("KRW", "₩"), ("SGD", "S$"),
     ("NZD", "NZ$"), ("CHF", "CHF"), ("SEK", "kr"), ("DKK", "kr"),
     ("NOK", "kr")]
  match currency_symbols.find? (fun p => p.1 == currency_code) with
  | none => currency_code
  | some p => p.2

/-- Python exception classes declared in `calculator.py` (and the builtin
`Exception` they extend). -/
inductive PyClass where
  | Exception : PyClass
  | CalculationError : PyClass
  | InvalidInputError : PyClass
deriving DecidableEq

/-- The direct superclass of each class, as declared in the source
(`class CalculationError(Exception)`, `class InvalidInputError(CalculationError)`). -/
def pySuperclass : PyClass → Option PyClass
  | .Exception => none
  | .CalculationError => some .Exception
  | .InvalidInputError => some .CalculationError

/-- Subclass test along the (depth-two) superclass chain, as Python's
`issubclass` computes it for this hierarchy. -/
def isSubclassOf (c d : PyClass) : Bool :=
  c = d ||
    match pySuperclass c with
    | none => false
    | some p =>
      p = d ||
        match pySuperclass p with
        | none => false
        | some q => q = d

/-- A raised Python exception: its class and its message. -/
structure PyExc where
  cls : PyClass
  msg : String
deriving DecidableEq

/-- An `except C:` handler catches `e` iff `e`'s class is `C` or a
subclass of `C`. -/
def catches (handler : PyClass) (e : PyExc) : Bool :=
  isSubclassOf e.cls handler

/-- The arguments of `StudyCostCalculator.__init__`. -/
structure Params where
  country : String
  city : String
  rent_type : String
  has_job : Bool
  weekly_hours : ℚ
  hourly_wage : ℚ
  initial_deposit : ℚ
  tuition_total : ℚ
  tuition_payment : String
deriving DecidableEq

/-- The constant `StudyCostCalculator.WEEKS_PER_MONTH`. -/
def WEEKS_PER_MONTH : ℚ := 4.33

/-- The constant `StudyCostCalculator.TUITION_PAYMENT_MONTHS`. -/
def TUITION_PAYMENT_MONTHS : ℕ := 10

/-- Embeds `StudyCostCalculator._validate_inputs` (calculator.py lines 108-155):
first failing check raises `InvalidInputError` with its message. -/
def _validate_inputs (country city rent_type : String)
    (weekly_hours hourly_wage initial_deposit tuition_total : ℚ)
    (tuition_payment : String) : Except PyExc Unit :=
  if country ∉ get_countries then
    .error ⟨.InvalidInputError,
      "不支持的国家: " ++ country ++ "。支持的国家: " ++
        String.intercalate (", ") get_countries⟩
  else if city ∉ get_cities country then
    .error ⟨.InvalidInputError,
      "不支持的城市: " ++ city ++ "。" ++ country ++ "支持的城市: " ++
        String.intercalate (", ") (get_cities country)⟩
  else if rent_type ∉ ["单间", "合租", "宿舍"] then
    .error ⟨.InvalidInputError,
      "不支持的房租类型: " ++ rent_type ++ "。支持的类型: 单间, 合租, 宿舍"⟩
  else if initial_deposit < 0 then
    .error ⟨.InvalidInputError, "初始存款不能为负数"⟩
  else if tuition_total < 0 then
    .error ⟨.InvalidInputError, "学费总额不能为负数"⟩
  else if weekly_hours < 0 then
    .error ⟨.InvalidInputError, "每周工作小时数不能为负数"⟩
  else if weekly_hours > 40 then
    .error ⟨.InvalidInputError, "每周工作小时数不能超过40小时"⟩
  else if hourly_wage < 0 then
    .error ⟨.InvalidInputError, "小时工资不能为负数"⟩
  else if tuition_payment ∉ ["一次性", "分期"] then
    .error ⟨.InvalidInputError,
      "不支持的学费支付方式: " ++ tuition_payment ++ "。支持的方式: 一次性, 分期"⟩
  else .ok ()

/-- Embeds `StudyCostCalculator._calculate_monthly_income`, as a function of the
(already `has_job`-adjusted) stored fields. -/
def _calculate_monthly_income (has_job : Bool) (weekly_hours hourly_wage : ℚ) : ℚ :=
  if !has_job then 0
  else round2 (weekly_hours * WEEKS_PER_MONTH * hourly_wage)

/-- Embeds `StudyCostCalculator._calculate_tuition_monthly`. -/
def _calculate_tuition_monthly (tuition_payment : String) (tuition_total : ℚ) : ℚ :=
  if tuition_payment = "一次性" then 0
  else if tuition_payment = "分期" then
    round2 (tuition_total / (TUITION_PAYMENT_MONTHS : ℚ))
  else 0

/-- The state of a constructed `StudyCostCalculator` (the attributes set by
`__init__`). -/
structure StudyCostCalculator where
  country : String
  city : String
  rent_type : String
  has_job : Bool
  weekly_hours : ℚ
  hourly_wage : ℚ
  initial_deposit : ℚ
  tuition_total : ℚ
  tuition_payment : String
  city_data : CostData
  currency : String
  currency_symbol : String
  data_sources : List String
  monthly_rent : ℚ
  monthly_living_cost : ℚ
  monthly_income : ℚ
  tuition_monthly : ℚ
deriving DecidableEq

/-- Embeds `StudyCostCalculator.__init__` (calculator.py lines 43-106): validate,
look up city data and rent, then populate the attributes. -/
def StudyCostCalculator.init (p : Params) : Except PyExc StudyCostCalculator :=
  match _validate_inputs p.country p.city p.rent_type p.weekly_hours
      p.hourly_wage p.initial_deposit p.tuition_total p.tuition_payment with
  | .error e => .error e
  | .ok _ =>
    match get_city_data p.country p.city with
    | none =>
      .error ⟨.InvalidInputError,
        "无法找到国家 " ++ p.country ++ " 城市 " ++ p.city ++ " 的数据"⟩
    | some city_data =>
      match get_rent_by_type p.country p.city p.rent_type with
      | none =>
        .error ⟨.InvalidInputError,
          "无法找到 " ++ p.rent_type ++ " 类型的房租数据"⟩
      | some rent =>
        let wh := if p.has_job then p.weekly_hours else 0
        .ok { country := p.country
              city := p.city
              rent_type := p.rent_type
              has_job := p.has_job
              weekly_hours := wh
              hourly_wage := p.hourly_wage
              initial_deposit := p.initial_deposit
              tuition_total := p.tuition_total
              tuition_payment := p.tuition_payment
              city_data := city_data
              currency := city_data.currency
              currency_symbol := get_currency_symbol city_data.currency
              data_sources := city_data.sources
              monthly_rent := rent
              monthly_living_cost := city_data.living_cost
              monthly_income := _calculate_monthly_income p.has_job wh p.hourly_wage
              tuition_monthly := _calculate_tuition_monthly p.tuition_payment p.tuition_total }

/-- One row of the 12-month ledger (one row of the DataFrame built by
`calculate_cashflow`, with the stored, rounded values). -/
structure Row where
  month : String
  income : ℚ
  expense : ℚ
  balance : ℚ
deriving DecidableEq

/-- The month labels used by `calculate_cashflow` (academic year starting
in September). -/
def month_names : List String :=
  ["9月", "10月", "11月", "12月", "1月", "2月",
   "3月", "4月", "5月", "6月", "7月", "8月"]

/-- The expense accumulated for month index `i` inside the loop of
`calculate_cashflow` (lines 199-206), before rounding. -/
def monthExpense (s : StudyCostCalculator) (i : ℕ) : ℚ :=
  let expense := s.monthly_rent + s.monthly_living_cost
  if s.tuition_payment = "一次性" ∧ i = 0 then expense + s.tuition_total
  else if s.tuition_payment = "分期" ∧ i < TUITION_PAYMENT_MONTHS then
    expense + s.tuition_monthly
  else expense

/-- The loop body of `calculate_cashflow`: the unrounded cumulative balance
is carried across iterations; rounded copies are stored in the rows. -/
def cashflowAux (s : StudyCostCalculator) : List (ℕ × String) → ℚ → List Row
  | [], _ => []
  | (i, m) :: rest, cumulative_balance =>
    let income := s.monthly_income
    let expense := monthExpense s i
    let cb := cumulative_balance + income - expense
    { month := m
      income := round2 income
      expense := round2 expense
      balance := round2 cb } :: cashflowAux s rest cb

/-- Embeds `StudyCostCalculator.calculate_cashflow` (lines 174-227): the 12-row
monthly ledger. -/
def StudyCostCalculator.calculate_cashflow (s : StudyCostCalculator) : List Row :=
  cashflowAux s month_names.enum s.initial_deposit

/-- The minimum of the stored running balances (`df[balance_col].min()`);
`0` is never used since the ledger always has 12 rows. -/
def dfMinBalance (rows : List Row) : ℚ :=
  match rows with
  | [] => 0
  | r :: rest => rest.foldl (fun acc x => min acc x.balance) r.balance

/-- Embeds `StudyCostCalculator.find_critical_months` (lines 229-253): the list of
months with negative stored balance, and the top-up amount. -/
def find_critical_months (rows : List Row) : List String × ℚ :=
  let min_balance := dfMinBalance rows
  let critical_months := (rows.filter (fun r => r.balance < 0)).map (fun r => r.month)
  let need_support := if min_balance < 0 then |min_balance| else 0
  (critical_months, need_support)

/-- The balance-fold property claimed by the specification, checked row by
row: each stored balance equals `round2` of (previous stored balance +
stored income - stored expense), starting from the initial deposit. -/
def chainHolds (prev : ℚ) : List Row → Bool
  | [] => true
  | r :: rest =>
    (decide (r.balance = round2 (prev + r.income - r.expense))) &&
      chainHolds r.balance rest

/-- Concrete scenario from the specification: Lisbon, shared room, job of
15 h/week at 8 EUR/h, deposit 5000, tuition 5000 paid in installments. -/
def lisbonInstallmentParams : Params :=
  { country := "葡萄牙"
    city := "里斯本"
    rent_type := "合租"
    has_job := true
    weekly_hours := 15
    hourly_wage := 8
    initial_deposit := 5000
    tuition_total := 5000
    tuition_payment := "分期" }

/-- Concrete scenario from the specification: Lisbon, shared room, no job,
deposit 500, tuition 6000 paid as a lump sum. -/
def lisbonLumpSumParams : Params :=
  { country := "葡萄牙"
    city := "里斯本"
    rent_type := "合租"
    has_job := false
    weekly_hours := 15
    hourly_wage := 8
    initial_deposit := 500
    tuition_total := 6000
    tuition_payment := "一次性" }

/-- A validated scenario whose initial deposit is not a whole number of
cents (1000.005): it passes validation but defeats the balance fold. -/
def halfCentDepositParams : Params :=
  { country := "葡萄牙"
    city := "里斯本"
    rent_type := "合租"
    has_job := true
    weekly_hours := 1
    hourly_wage := 1
    initial_deposit := 1000 + 1/200
    tuition_total := 0
    tuition_payment := "分期" }

/-- A validated lump-sum scenario whose tuition (0.004) is smaller than
half a cent: rounding erases it from the stored month-0 expense. -/
def tinyTuitionParams : Params :=
  { country := "葡萄牙"
    city := "里斯本"
    rent_type := "合租"
    has_job := false
    weekly_hours := 0
    hourly_wage := 0
    initial_deposit := 0
    tuition_total := 1/250
    tuition_payment := "一次性" }

/-- A jobless scenario whose weekly hours exceed the 40-hour cap. -/
def joblessOverhoursParams : Params :=
  { country := "葡萄牙"
    city := "里斯本"
    rent_type := "合租"
    has_job := false
    weekly_hours := 50
    hourly_wage := 8
    initial_deposit := 5000
    tuition_total := 5000
    tuition_payment := "分期" }

/-- The Lisbon cost record (first entry of the database). -/
def lisbonCostData : CostData :=
  { rent_single := 400
    rent_shared := 250
    rent_dorm := 300
    living_cost := 350
    currency := "EUR"
    sources := ["Numbeo 2024 - Cost of Living in Lisbon",
                "葡萄牙国家统计局 - 2024年住房成本报告",
                "Expatistan - Lisbon Living Costs"] }

/-- The calculator state produced by `init` on `lisbonInstallmentParams`. -/
def lisbonInstallmentCalc : StudyCostCalculator :=
  { country := "葡萄牙"
    city := "里斯本"
    rent_type := "合租"
    has_job := true
    weekly_hours := 15
    hourly_wage := 8
    initial_deposit := 5000
    tuition_total := 5000
    tuition_payment := "分期"
    city_data := lisbonCostData
    currency := "EUR"
    currency_symbol := "€"
    data_sources := lisbonCostData.sources
    monthly_rent := 250
    monthly_living_cost := 350
    monthly_income := 519.6
    tuition_monthly := 500 }

/-- The calculator state produced by `init` on `lisbonLumpSumParams`. -/
def lisbonLumpSumCalc : StudyCostCalculator :=
  { country := "葡萄牙"
    city := "里斯本"
    rent_type := "合租"
    has_job := false
    weekly_hours := 0
    hourly_wage := 8
    initial_deposit := 500
    tuition_total := 6000
    tuition_payment := "一次性"
    city_data := lisbonCostData
    currency := "EUR"
    currency_symbol := "€"
    data_sources := lisbonCostData.sources
    monthly_rent := 250
    monthly_living_cost := 350
    monthly_income := 0
    tuition_monthly := 0 }

theorem roundHalfEven_intCast (n : ℤ) : roundHalfEven (n : ℚ) = n := by
  unfold roundHalfEven
  rw [Int.floor_intCast]
  norm_num

theorem abs_roundHalfEven_sub_le (q : ℚ) : |(roundHalfEven q : ℚ) - q| ≤ 1/2 := by
  have h0 : (⌊q⌋ : ℚ) ≤ q := Int.floor_le q
  have h1 : q < (⌊q⌋ : ℚ) + 1 := Int.lt_floor_add_one q
  unfold roundHalfEven
  split_ifs with hlt hgt hev
  · rw [abs_le]
    constructor <;> linarith
  · rw [abs_le]
    push_cast
    constructor <;> linarith
  · rw [abs_le]
    constructor <;> linarith
  · rw [abs_le]
    push_cast
    constructor <;> linarith

theorem centMult_iff (q : ℚ) : centMult q ↔ ∃ n : ℤ, q = (n : ℚ) / 100 := by
  unfold centMult
  constructor
  · intro h
    refine ⟨(100 * q).num, ?_⟩
    have h2 : (((100 * q).num : ℚ)) = 100 * q := (Rat.den_eq_one_iff _).mp h
    field_simp
    linarith
  · rintro ⟨n, rfl⟩
    have h3 : (100 : ℚ) * ((n : ℚ) / 100) = (n : ℚ) := by ring
    rw [h3]
    exact Rat.den_intCast n

theorem centMult_add {a b : ℚ} (ha : centMult a) (hb : centMult b) :
    centMult (a + b) := by
  rw [centMult_iff] at ha hb ⊢
  obtain ⟨m, rfl⟩ := ha
  obtain ⟨n, rfl⟩ := hb
  refine ⟨m + n, ?_⟩
  push_cast
  ring

theorem centMult_sub {a b : ℚ} (ha : centMult a) (hb : centMult b) :
    centMult (a - b) := by
  rw [centMult_iff] at ha hb ⊢
  obtain ⟨m, rfl⟩ := ha
  obtain ⟨n, rfl⟩ := hb
  refine ⟨m - n, ?_⟩
  push_cast
  ring

theorem centMult_zero : centMult 0 := by
  unfold centMult
  norm_num

theorem round2_centMult (q : ℚ) : centMult (round2 q) := by
  rw [centMult_iff]
  exact ⟨roundHalfEven (100 * q), rfl⟩

theorem round2_eq_self {q : ℚ} (h : centMult q) : round2 q = q := by
  rw [centMult_iff] at h
  obtain ⟨n, rfl⟩ := h
  unfold round2
  have h3 : (100 : ℚ) * ((n : ℚ) / 100) = (n : ℚ) := by ring
  rw [h3, roundHalfEven_intCast]

theorem db_entries_centMult :
    ∀ e ∈ GLOBAL_CITY_DATABASE, ∀ cd ∈ e.2,
      centMult cd.2.rent_single ∧ centMult cd.2.rent_shared ∧
        centMult cd.2.rent_dorm ∧ centMult cd.2.living_cost := by
  decide

theorem get_city_data_centMult {country city : String} {d : CostData}
    (h : get_city_data country city = some d) :
    centMult d.rent_single ∧ centMult d.rent_shared ∧
      centMult d.rent_dorm ∧ centMult d.living_cost := by
  unfold get_city_data at h
  split at h
  · exact absurd h (by simp)
  · rename_i p hp
    split at h
    · exact absurd h (by simp)
    · rename_i q hq
      have hpm : p ∈ GLOBAL_CITY_DATABASE := List.mem_of_find?_eq_some hp
      have hqm : q ∈ p.2 := List.mem_of_find?_eq_some hq
      have := db_entries_centMult p hpm q hqm
      cases h
      exact this

theorem get_rent_by_type_centMult {country city rent_type : String} {r : ℚ}
    (h : get_rent_by_type country city rent_type = some r) : centMult r := by
  unfold get_rent_by_type at h
  split at h
  · exact absurd h (by simp)
  · rename_i data hd
    have hc := get_city_data_centMult hd
    split_ifs at h <;> cases h
    · exact hc.1
    · exact hc.2.1
    · exact hc.2.2.1

theorem foldl_min_le_init (l : List Row) (b : ℚ) :
    l.foldl (fun acc x => min acc x.balance) b ≤ b := by
  induction l generalizing b with
  | nil => exact le_refl b
  | cons a t ih => exact le_trans (ih (min b a.balance)) (min_le_left _ _)

theorem foldl_min_le_mem {l : List Row} {r : Row} (h : r ∈ l) (b : ℚ) :
    l.foldl (fun acc x => min acc x.balance) b ≤ r.balance := by
  induction l generalizing b with
  | nil => exact absurd h (List.not_mem_nil r)
  | cons a t ih =>
    rcases List.mem_cons.mp h with h1 | h2
    · subst h1
      exact le_trans (foldl_min_le_init t _) (min_le_right _ _)
    · exact ih h2 _

theorem foldl_min_eq_init_or_mem (l : List Row) (b : ℚ) :
    l.foldl (fun acc x => min acc x.balance) b = b ∨
      ∃ r ∈ l, l.foldl (fun acc x => min acc x.balance) b = r.balance := by
  induction l generalizing b with
  | nil => exact Or.inl rfl
  | cons a t ih =>
    rw [List.foldl_cons]
    rcases ih (min b a.balance) with h1 | ⟨r, hr, h2⟩
    · rcases min_choice b a.balance with hm | hm
      · exact Or.inl (by rw [h1, hm])
      · exact Or.inr ⟨a, List.mem_cons_self a t, by rw [h1, hm]⟩
    · exact Or.inr ⟨r, List.mem_cons_of_mem a hr, h2⟩

theorem dfMinBalance_le {rows : List Row} {r : Row} (h : r ∈ rows) :
    dfMinBalance rows ≤ r.balance := by
  cases rows with
  | nil => exact absurd h (List.not_mem_nil r)
  | cons a t =>
    unfold dfMinBalance
    rcases List.mem_cons.mp h with h1 | h2
    · subst h1
      exact foldl_min_le_init t _
    · exact foldl_min_le_mem h2 _

theorem dfMinBalance_mem {rows : List Row} (h : rows ≠ []) :
    ∃ r ∈ rows, dfMinBalance rows = r.balance := by
  cases rows with
  | nil => exact absurd rfl h
  | cons a t =>
    unfold dfMinBalance
    rcases foldl_min_eq_init_or_mem t a.balance with h1 | ⟨r, hr, h2⟩
    · exact ⟨a, List.mem_cons_self a t, h1⟩
    · exact ⟨r, List.mem_cons_of_mem a hr, h2⟩

theorem init_fields {p : Params} {s : StudyCostCalculator}
    (h : StudyCostCalculator.init p = Except.ok s) :
    s.initial_deposit = p.initial_deposit ∧
      s.tuition_total = p.tuition_total ∧
      s.tuition_payment = p.tuition_payment ∧
      s.has_job = p.has_job ∧
      s.weekly_hours = (if p.has_job then p.weekly_hours else 0) ∧
      s.monthly_income =
        _calculate_monthly_income p.has_job
          (if p.has_job then p.weekly_hours else 0) p.hourly_wage ∧
      s.tuition_monthly = _calculate_tuition_monthly p.tuition_payment p.tuition_total ∧
      get_city_data p.country p.city = some s.city_data ∧
      s.monthly_living_cost = s.city_data.living_cost ∧
      get_rent_by_type p.country p.city p.rent_type = some s.monthly_rent := by
  unfold StudyCostCalculator.init at h
  split at h
  · exact absurd h (by simp)
  · split at h
    · exact absurd h (by simp)
    · rename_i city_data hcd
      split at h
      · exact absurd h (by simp)
      · rename_i rent hrent
        simp only [Except.ok.injEq] at h
        subst h
        simp_all

theorem validate_error_cls {country city rent_type : String}
    {wh hw dep tui : ℚ} {pay : String} {e : PyExc}
    (h : _validate_inputs country city rent_type wh hw dep tui pay = Except.error e) :
    e.cls = PyClass.InvalidInputError := by
  unfold _validate_inputs at h
  split_ifs at h <;> cases h <;> rfl

theorem init_error_cls {p : Params} {e : PyExc}
    (h : StudyCostCalculator.init p = Except.error e) :
    e.cls = PyClass.InvalidInputError := by
  unfold StudyCostCalculator.init at h
  split at h
  · rename_i e2 hv
    cases h
    exact validate_error_cls hv
  · split at h
    · cases h
      rfl
    · split at h
      · cases h
        rfl
      · exact absurd h (by simp)

theorem validate_ok_iff (country city rent_type : String)
    (wh hw dep tui : ℚ) (pay : String) :
    _validate_inputs country city rent_type wh hw dep tui pay = Except.ok () ↔
      (country ∈ get_countries ∧ city ∈ get_cities country ∧
        rent_type ∈ (["单间", "合租", "宿舍"] : List String) ∧
        0 ≤ dep ∧ 0 ≤ tui ∧ 0 ≤ wh ∧ wh ≤ 40 ∧ 0 ≤ hw ∧
        pay ∈ (["一次性", "分期"] : List String)) := by
  unfold _validate_inputs
  split_ifs with h1 h2 h3 h4 h5 h6 h7 h8 h9
  all_goals simp_all [not_lt, not_le]

theorem monthExpense_centMult {s : StudyCostCalculator}
    (hr : centMult s.monthly_rent) (hl : centMult s.monthly_living_cost)
    (ht : centMult s.tuition_total) (hm : centMult s.tuition_monthly) (i : ℕ) :
    centMult (monthExpense s i) := by
  unfold monthExpense
  split_ifs with h1 h2
  · exact centMult_add (centMult_add hr hl) ht
  · exact centMult_add (centMult_add hr hl) hm
  · exact centMult_add hr hl

theorem chainHolds_cashflowAux {s : StudyCostCalculator}
    (hinc : centMult s.monthly_income)
    (hexp : ∀ i, centMult (monthExpense s i)) :
    ∀ (l : List (ℕ × String)) (cum : ℚ), centMult cum →
      chainHolds cum (cashflowAux s l cum) = true := by
  intro l
  induction l with
  | nil =>
    intro cum hc
    rfl
  | cons hd tl ih =>
    intro cum hc
    obtain ⟨i, m⟩ := hd
    have hcb : centMult (cum + s.monthly_income - monthExpense s i) :=
      centMult_sub (centMult_add hc hinc) (hexp i)
    unfold cashflowAux chainHolds
    rw [Bool.and_eq_true, decide_eq_true_eq]
    constructor
    · rw [round2_eq_self hinc, round2_eq_self (hexp i)]
    · rw [round2_eq_self hcb]
      exact ih _ hcb

theorem balance_fold_on_cent_inputs {p : Params} {s : StudyCostCalculator}
    (h : StudyCostCalculator.init p = Except.ok s)
    (hdep : centMult p.initial_deposit) (htui : centMult p.tuition_total) :
    chainHolds p.initial_deposit s.calculate_cashflow = true := by
  obtain ⟨e1, e2, e3, e4, e5, e6, e7, e8, e9, e10⟩ := init_fields h
  have hrent : centMult s.monthly_rent := get_rent_by_type_centMult e10
  have hliv : centMult s.monthly_living_cost := by
    rw [e9]
    exact (get_city_data_centMult e8).2.2.2
  have htt : centMult s.tuition_total := by
    rw [e2]
    exact htui
  have hinc : centMult s.monthly_income := by
    rw [e6]
    unfold _calculate_monthly_income
    split_ifs <;> first
      | exact centMult_zero
      | exact round2_centMult _
  have htm : centMult s.tuition_monthly := by
    rw [e7]
    unfold _calculate_tuition_monthly
    split_ifs <;> first
      | exact centMult_zero
      | exact round2_centMult _
  have hexp : ∀ i, centMult (monthExpense s i) :=
    monthExpense_centMult hrent hliv htt htm
  unfold StudyCostCalculator.calculate_cashflow
  rw [← e1]
  exact chainHolds_cashflowAux hinc hexp month_names.enum s.initial_deposit
    (by rw [e1]; exact hdep)

/-- C1: the balance fold as literally specified fails on the code: for the
validated scenario `halfCentDepositParams` (initial deposit 1000.005), the
stored running balances do not satisfy
`runningBalance[i] = round2(runningBalance[i-1] + income[i] - expense[i])`. -/
theorem c1_balance_fold_counterexample :
    (StudyCostCalculator.init halfCentDepositParams).map
        (fun s => chainHolds halfCentDepositParams.initial_deposit
          s.calculate_cashflow) =
      Except.ok false := by
  rfl

/-- C1 (amended): for every validated scenario whose `initialDeposit` and
`tuitionTotal` are whole numbers of cents, every stored running balance of
the 12-row ledger satisfies the balance fold
`runningBalance[i] = round2(runningBalance[i-1] + income[i] - expense[i])`
(with `runningBalance[-1]` read as the initial deposit), where income and
expense are the stored, rounded row values. -/
theorem c1_balance_fold (p : Params) (s : StudyCostCalculator)
    (h : StudyCostCalculator.init p = Except.ok s)
    (hdep : centMult p.initial_deposit) (htui : centMult p.tuition_total) :
    chainHolds p.initial_deposit s.calculate_cashflow = true :=
  balance_fold_on_cent_inputs h hdep htui

/-- Witness for C1 at the concrete Lisbon installment scenario. -/
theorem c1_balance_fold_witness :
    chainHolds lisbonInstallmentParams.initial_deposit
      lisbonInstallmentCalc.calculate_cashflow = true :=
  c1_balance_fold lisbonInstallmentParams lisbonInstallmentCalc (by rfl)
    (by decide) (by decide)

/-- C2: `_validate_inputs` succeeds exactly when every field satisfies its
documented bound, and the spec's boundary probes behave as claimed:
40.01 weekly hours and -0.01 deposit raise `InvalidInput`, while the
boundary-satisfying values 40, 0 hours, 0 deposit, 0 tuition and 0 wage
are accepted. -/
theorem c2_validation_completeness :
    (∀ (country city rent_type : String) (wh hw dep tui : ℚ) (pay : String),
      _validate_inputs country city rent_type wh hw dep tui pay = Except.ok () ↔
        (country ∈ get_countries ∧ city ∈ get_cities country ∧
          rent_type ∈ (["单间", "合租", "宿舍"] : List String) ∧
          0 ≤ dep ∧ 0 ≤ tui ∧ 0 ≤ wh ∧ wh ≤ 40 ∧ 0 ≤ hw ∧
          pay ∈ (["一次性", "分期"] : List String))) ∧
    _validate_inputs ("葡萄牙") ("里斯本") ("合租") 40.01 8 5000 5000 ("分期") =
      Except.error ⟨PyClass.InvalidInputError, "每周工作小时数不能超过40小时"⟩ ∧
    _validate_inputs ("葡萄牙") ("里斯本") ("合租") 15 8 (-0.01) 5000 ("分期") =
      Except.error ⟨PyClass.InvalidInputError, "初始存款不能为负数"⟩ ∧
    _validate_inputs ("葡萄牙") ("里斯本") ("合租") 40 8 5000 5000 ("分期") =
      Except.ok () ∧
    _validate_inputs ("葡萄牙") ("里斯本") ("合租") 0 8 5000 5000 ("分期") =
      Except.ok () ∧
    _validate_inputs ("葡萄牙") ("里斯本") ("合租") 15 8 0 5000 ("分期") =
      Except.ok () ∧
    _validate_inputs ("葡萄牙") ("里斯本") ("合租") 15 8 5000 0 ("分期") =
      Except.ok () ∧
    _validate_inputs ("葡萄牙") ("里斯本") ("合租") 15 0 5000 5000 ("分期") =
      Except.ok () :=
  ⟨validate_ok_iff, by rfl, by rfl, by rfl, by rfl, by rfl, by rfl, by rfl⟩

/-- C3: for every nonempty ledger, `need_support = 0` iff `critical_months`
is empty iff the minimum stored running balance is nonnegative. -/
theorem c3_shortfall_consistency (rows : List Row) (h : rows ≠ []) :
    ((find_critical_months rows).2 = 0 ↔ (find_critical_months rows).1 = []) ∧
    ((find_critical_months rows).1 = [] ↔ 0 ≤ dfMinBalance rows) := by
  have key : (find_critical_months rows).1 = [] ↔ 0 ≤ dfMinBalance rows := by
    unfold find_critical_months
    simp only [List.map_eq_nil_iff, List.filter_eq_nil_iff, decide_eq_true_eq]
    constructor
    · intro hall
      obtain ⟨r, hr, heq⟩ := dfMinBalance_mem h
      rw [heq]
      exact not_lt.mp (hall r hr)
    · intro h0 r hr
      exact not_lt.mpr (le_trans h0 (dfMinBalance_le hr))
  have hneed : (find_critical_months rows).2 = 0 ↔ 0 ≤ dfMinBalance rows := by
    unfold find_critical_months
    simp only
    split_ifs with hlt
    · exact iff_of_false
        (fun h0 => absurd (abs_eq_zero.mp h0) (ne_of_lt hlt)) (not_le.mpr hlt)
    · exact iff_of_true rfl (not_lt.mp hlt)
  exact ⟨hneed.trans key.symm, key⟩

/-- Witness for C3 at the concrete Lisbon lump-sum ledger. -/
theorem c3_shortfall_consistency_witness :
    ((find_critical_months lisbonLumpSumCalc.calculate_cashflow).2 = 0 ↔
      (find_critical_months lisbonLumpSumCalc.calculate_cashflow).1 = []) ∧
    ((find_critical_months lisbonLumpSumCalc.calculate_cashflow).1 = [] ↔
      0 ≤ dfMinBalance lisbonLumpSumCalc.calculate_cashflow) :=
  c3_shortfall_consistency lisbonLumpSumCalc.calculate_cashflow (by decide)

/-- C4: the claimed 0.02 tolerance fails: at `tuitionTotal = 0.03` the
installment share is `round2(0.003) = 0`, and ten installments reconstruct
0, which misses the total by 0.03 > 0.02. -/
theorem c4_tuition_conservation_counterexample :
    ¬ (|round2 ((_calculate_tuition_monthly ("分期") (3/100)) * 10) - 3/100| ≤
        2/100) := by
  decide

/-- C4 (amended): for every nonnegative `tuitionTotal`, the ten installment
payments reconstruct it to within 0.05 (ten times the half-cent rounding
error of one installment). -/
theorem c4_tuition_conservation (t : ℚ) (h : 0 ≤ t) :
    |round2 ((_calculate_tuition_monthly ("分期") t) * 10) - t| ≤ 5/100 := by
  unfold _calculate_tuition_monthly
  rw [if_neg (by decide), if_pos rfl]
  have h10 : ((TUITION_PAYMENT_MONTHS : ℕ) : ℚ) = 10 := by
    norm_num [TUITION_PAYMENT_MONTHS]
  rw [h10]
  unfold round2
  have e1 : (100 : ℚ) * (t / 10) = 10 * t := by ring
  rw [e1]
  have e2 : (100 : ℚ) * ((roundHalfEven (10 * t) : ℚ) / 100 * 10) =
      (((10 * roundHalfEven (10 * t) : ℤ)) : ℚ) := by
    push_cast
    ring
  rw [e2, roundHalfEven_intCast]
  have hb := abs_roundHalfEven_sub_le (10 * t)
  rw [abs_le] at hb ⊢
  obtain ⟨hb1, hb2⟩ := hb
  push_cast at hb1 hb2 ⊢
  constructor <;> linarith

/-- Witness for C4 at `tuitionTotal = 0.03`. -/
theorem c4_tuition_conservation_witness :
    (0 : ℚ) ≤ 3/100 ∧
      |round2 ((_calculate_tuition_monthly ("分期") (3/100)) * 10) - 3/100| ≤
        5/100 :=
  ⟨by norm_num, c4_tuition_conservation (3/100) (by norm_num)⟩

set_option maxRecDepth 4000 in
/-- C5: contrary to the claim, `critical_months` is NOT empty for the
Lisbon installment scenario: the stored balance goes negative from May on. -/
theorem c5_lisbon_installment_counterexample :
    (StudyCostCalculator.init lisbonInstallmentParams).map
        (fun s => (find_critical_months s.calculate_cashflow).1) =
      Except.ok ["5月", "6月", "7月", "8月"] ∧
    (["5月", "6月", "7月", "8月"] : List String) ≠ [] :=
  ⟨by rfl, by decide⟩

set_option maxRecDepth 4000 in
/-- C5 (amended): the Lisbon installment scenario yields monthly income
519.60, tuition share 500, month-0 expense 1100 and balance 4419.60, and
the full 12-row ledger as computed; its critical months are May-August
(stored balances -223.60, -804, -884.40, -964.80) with top-up 964.80. -/
theorem c5_lisbon_installment :
    StudyCostCalculator.init lisbonInstallmentParams =
      Except.ok lisbonInstallmentCalc ∧
    lisbonInstallmentCalc.monthly_income = 519.6 ∧
    lisbonInstallmentCalc.tuition_monthly = 500 ∧
    lisbonInstallmentCalc.calculate_cashflow =
      [⟨"9月", 519.6, 1100, 4419.6⟩, ⟨"10月", 519.6, 1100, 3839.2⟩,
       ⟨"11月", 519.6, 1100, 3258.8⟩, ⟨"12月", 519.6, 1100, 2678.4⟩,
       ⟨"1月", 519.6, 1100, 2098⟩, ⟨"2月", 519.6, 1100, 1517.6⟩,
       ⟨"3月", 519.6, 1100, 937.2⟩, ⟨"4月", 519.6, 1100, 356.8⟩,
       ⟨"5月", 519.6, 1100, -223.6⟩, ⟨"6月", 519.6, 1100, -804⟩,
       ⟨"7月", 519.6, 600, -884.4⟩, ⟨"8月", 519.6, 600, -964.8⟩] ∧
    find_critical_months lisbonInstallmentCalc.calculate_cashflow =
      (["5月", "6月", "7月", "8月"], 964.8) :=
  ⟨by rfl, by rfl, by rfl, by rfl, by rfl⟩

set_option maxRecDepth 4000 in
/-- C6: contrary to the claim, `need_support` is 12700, not 6100: with no
job there is no income, so the balance keeps falling after September and
the global minimum is August's -12700, not September's -6100. -/
theorem c6_lisbon_lump_sum_counterexample :
    (StudyCostCalculator.init lisbonLumpSumParams).map
        (fun s => (find_critical_months s.calculate_cashflow).2) =
      Except.ok 12700 ∧
    (12700 : ℚ) ≠ 6100 :=
  ⟨by rfl, by decide⟩

set_option maxRecDepth 4000 in
/-- C6 (amended): the Lisbon lump-sum scenario has month-0 expense 6600 and
balance -6100; every month is critical (the balance falls by 600 each later
month, reaching -12700 in August), and the top-up needed is 12700. -/
theorem c6_lisbon_lump_sum :
    StudyCostCalculator.init lisbonLumpSumParams = Except.ok lisbonLumpSumCalc ∧
    lisbonLumpSumCalc.calculate_cashflow =
      [⟨"9月", 0, 6600, -6100⟩, ⟨"10月", 0, 600, -6700⟩,
       ⟨"11月", 0, 600, -7300⟩, ⟨"12月", 0, 600, -7900⟩,
       ⟨"1月", 0, 600, -8500⟩, ⟨"2月", 0, 600, -9100⟩,
       ⟨"3月", 0, 600, -9700⟩, ⟨"4月", 0, 600, -10300⟩,
       ⟨"5月", 0, 600, -10900⟩, ⟨"6月", 0, 600, -11500⟩,
       ⟨"7月", 0, 600, -12100⟩, ⟨"8月", 0, 600, -12700⟩] ∧
    find_critical_months lisbonLumpSumCalc.calculate_cashflow =
      (["9月", "10月", "11月", "12月", "1月", "2月",
        "3月", "4月", "5月", "6月", "7月", "8月"], 12700) :=
  ⟨by rfl, by rfl, by rfl⟩

theorem charListLe_iff_le (xs : List Char) : ∀ ys, charListLe xs ys = true ↔ xs ≤ ys := by
  induction xs with
  | nil =>
    intro ys
    exact iff_of_true rfl List.nil_le
  | cons x xs ih =>
    intro ys
    cases ys with
    | nil =>
      refine iff_of_false (by simp [charListLe]) ?_
      intro hle
      exact absurd (List.nil_lt_cons x xs) (not_lt.mpr hle)
    | cons y ys =>
      show (if x < y then true else if y < x then false else charListLe xs ys) = true ↔ _
      rw [← not_lt]
      split_ifs with h1 h2
      · refine iff_of_true rfl (fun h => ?_)
        replace h : List.Lex (· < ·) (y :: ys) (x :: xs) := h
        cases h with
        | cons htl => exact lt_irrefl x h1
        | rel hr => exact lt_asymm h1 hr
      · refine iff_of_false (by simp) (fun h => h ?_)
        exact List.Lex.rel h2
      · have hxy : x = y := le_antisymm (not_lt.mp h2) (not_lt.mp h1)
        subst hxy
        rw [ih ys, ← not_lt]
        constructor
        · intro hn h
          replace h : List.Lex (· < ·) (x :: ys) (x :: xs) := h
          cases h with
          | cons htl => exact hn htl
          | rel hr => exact lt_irrefl x hr
        · intro hn htl
          exact hn (List.Lex.cons htl)

theorem strLe_iff (a b : String) : strLe a b = true ↔ a ≤ b := by
  rw [String.le_iff_toList_le]
  exact charListLe_iff_le a.data b.data

instance : IsTrans String strLeRel where
  trans a b c hab hbc := by
    unfold strLeRel at *
    rw [strLe_iff] at *
    exact le_trans hab hbc

instance : IsTotal String strLeRel where
  total a b := by
    unfold strLeRel
    rw [strLe_iff, strLe_iff]
    exact le_total a b

/-- C8: `get_cities` never fails: for every country string the result is
sorted ascending; it is `[]` when the country is not in the catalog, and a
permutation of the catalog's city names for that country otherwise. -/
theorem c8_get_cities_total (country : String) :
    List.Sorted (· ≤ ·) (get_cities country) ∧
    (GLOBAL_CITY_DATABASE.find? (fun p => p.1 == country) = none →
      get_cities country = []) ∧
    (∀ p, GLOBAL_CITY_DATABASE.find? (fun p => p.1 == country) = some p →
      (get_cities country).Perm (p.2.map Prod.fst)) := by
  refine ⟨?_, ?_, ?_⟩
  · unfold get_cities
    split
    · exact List.sorted_nil
    · exact (List.sorted_insertionSort strLeRel _).imp
        (fun hab => (strLe_iff _ _).mp hab)
  · intro hn
    unfold get_cities
    rw [hn]
  · intro p hp
    unfold get_cities
    rw [hp]
    exact List.perm_insertionSort strLeRel _

/-- Witness for C8 at a country not present in the catalog. -/
theorem c8_get_cities_total_witness : get_cities ("Atlantis") = [] :=
  (c8_get_cities_total ("Atlantis")).2.1 (by rfl)

theorem init_ok_validate {p : Params} {s : StudyCostCalculator}
    (h : StudyCostCalculator.init p = Except.ok s) :
    _validate_inputs p.country p.city p.rent_type p.weekly_hours p.hourly_wage
      p.initial_deposit p.tuition_total p.tuition_payment = Except.ok () := by
  unfold StudyCostCalculator.init at h
  split at h
  · exact absurd h (by simp)
  · rename_i u hv
    cases u
    exact hv

/-- C9: `InvalidInputError` is declared as a subclass of
`CalculationError`, so every error the constructor raises (all of which are
`InvalidInputError`) is caught by an `except CalculationError` handler. -/
theorem c9_invalid_input_is_calculation_error :
    isSubclassOf PyClass.InvalidInputError PyClass.CalculationError = true ∧
    (∀ (p : Params) (e : PyExc), StudyCostCalculator.init p = Except.error e →
      catches PyClass.CalculationError e = true) := by
  refine ⟨by decide, fun p e h => ?_⟩
  unfold catches
  rw [init_error_cls h]
  decide

/-- Witness for C9: a concrete failing construction whose error a
`CalculationError` handler catches. -/
theorem c9_invalid_input_is_calculation_error_witness :
    StudyCostCalculator.init joblessOverhoursParams =
      Except.error ⟨PyClass.InvalidInputError, "每周工作小时数不能超过40小时"⟩ ∧
    catches PyClass.CalculationError
      ⟨PyClass.InvalidInputError, "每周工作小时数不能超过40小时"⟩ = true :=
  ⟨by rfl,
   (c9_invalid_input_is_calculation_error).2 joblessOverhoursParams
     ⟨PyClass.InvalidInputError, "每周工作小时数不能超过40小时"⟩ (by rfl)⟩

/-- C10: `weekly_hours` is validated before being forced to 0 for jobless
scenarios: out-of-range hours make the constructor fail with
`InvalidInputError` even when `has_job` is false, and in any successfully
constructed jobless calculator the stored hours are 0 and the monthly
income is 0. -/
theorem c10_hours_validated_before_forcing :
    (∀ p : Params, p.has_job = false →
      (p.weekly_hours < 0 ∨ 40 < p.weekly_hours) →
      (StudyCostCalculator.init p).isOk = false ∧
        ∀ e, StudyCostCalculator.init p = Except.error e →
          e.cls = PyClass.InvalidInputError) ∧
    (∀ (p : Params) (s : StudyCostCalculator), p.has_job = false →
      StudyCostCalculator.init p = Except.ok s →
      s.weekly_hours = 0 ∧ s.monthly_income = 0) := by
  constructor
  · intro p hjob hout
    constructor
    · cases hinit : StudyCostCalculator.init p with
      | error e => rfl
      | ok s =>
        have hv := init_ok_validate hinit
        rw [validate_ok_iff] at hv
        rcases hout with hlt | hgt
        · exact absurd hv.2.2.2.2.2.1 (not_le.mpr hlt)
        · exact absurd hv.2.2.2.2.2.2.1 (not_le.mpr hgt)
    · intro e he
      exact init_error_cls he
  · intro p s hjob hinit
    obtain ⟨e1, e2, e3, e4, e5, e6, e7, e8, e9, e10⟩ := init_fields hinit
    rw [hjob] at e5 e6
    simp only [Bool.false_eq_true, if_false] at e5 e6
    refine ⟨e5, ?_⟩
    rw [e6]
    unfold _calculate_monthly_income
    simp

/-- Witness for C10: jobless 50-hour input is rejected; the jobless
lump-sum calculator stores 0 hours and 0 income. -/
theorem c10_hours_validated_before_forcing_witness :
    (StudyCostCalculator.init joblessOverhoursParams).isOk = false ∧
    lisbonLumpSumCalc.weekly_hours = 0 ∧ lisbonLumpSumCalc.monthly_income = 0 :=
  ⟨(c10_hours_validated_before_forcing.1 joblessOverhoursParams (by rfl)
      (Or.inr (by decide))).1,
   c10_hours_validated_before_forcing.2 lisbonLumpSumParams lisbonLumpSumCalc
     (by rfl) (by rfl)⟩

theorem cashflowAux_map_expense (s : StudyCostCalculator) :
    ∀ (l : List (ℕ × String)) (cum : ℚ),
      (cashflowAux s l cum).map Row.expense =
        l.map (fun pr => round2 (monthExpense s pr.1)) := by
  intro l
  induction l with
  | nil =>
    intro cum
    rfl
  | cons hd tl ih =>
    intro cum
    obtain ⟨i, m⟩ := hd
    unfold cashflowAux
    simp only [List.map_cons]
    rw [ih]

theorem month_names_enum :
    month_names.enum =
      [(0, "9月"), (1, "10月"), (2, "11月"), (3, "12月"), (4, "1月"),
       (5, "2月"), (6, "3月"), (7, "4月"), (8, "5月"), (9, "6月"),
       (10, "7月"), (11, "8月")] := by
  rfl

theorem monthExpense_lumpSum_zero {s : StudyCostCalculator}
    (hp : s.tuition_payment = "一次性") :
    monthExpense s 0 = s.monthly_rent + s.monthly_living_cost + s.tuition_total := by
  unfold monthExpense
  rw [if_pos ⟨hp, rfl⟩]

theorem monthExpense_lumpSum_pos {s : StudyCostCalculator}
    (hp : s.tuition_payment = "一次性") {i : ℕ} (hi : i ≠ 0) :
    monthExpense s i = s.monthly_rent + s.monthly_living_cost := by
  unfold monthExpense
  rw [if_neg (fun hc => hi hc.2),
    if_neg (fun hc => by rw [hp] at hc; exact absurd hc.1 (by decide))]

theorem monthExpense_installment_lt {s : StudyCostCalculator}
    (hp : s.tuition_payment = "分期") {i : ℕ} (hi : i < TUITION_PAYMENT_MONTHS) :
    monthExpense s i = s.monthly_rent + s.monthly_living_cost + s.tuition_monthly := by
  unfold monthExpense
  rw [if_neg (fun hc => by rw [hp] at hc; exact absurd hc.1 (by decide)),
    if_pos ⟨hp, hi⟩]

theorem monthExpense_installment_ge {s : StudyCostCalculator}
    (hp : s.tuition_payment = "分期") {i : ℕ} (hi : ¬ i < TUITION_PAYMENT_MONTHS) :
    monthExpense s i = s.monthly_rent + s.monthly_living_cost := by
  unfold monthExpense
  rw [if_neg (fun hc => by rw [hp] at hc; exact absurd hc.1 (by decide)),
    if_neg (fun hc => hi hc.2)]

/-- C7 (amended): under lumpSum mode row 0's stored expense is
`round2(rent + living + tuitionTotal)` — the full tuition, rounded into the
stored value — and rows 1-11 equal `rent + living` exactly; under
installment mode rows 0-9 each carry exactly `round2(tuitionTotal/10)` on
top of `rent + living`, and rows 10-11 carry no tuition. -/
theorem c7_tuition_placement (p : Params) (s : StudyCostCalculator)
    (h : StudyCostCalculator.init p = Except.ok s) :
    (s.tuition_payment = "一次性" →
      s.calculate_cashflow.map Row.expense =
        round2 (s.monthly_rent + s.monthly_living_cost + s.tuition_total) ::
          List.replicate 11 (s.monthly_rent + s.monthly_living_cost)) ∧
    (s.tuition_payment = "分期" →
      s.calculate_cashflow.map Row.expense =
        List.replicate 10
            (s.monthly_rent + s.monthly_living_cost +
              round2 (p.tuition_total / 10)) ++
          List.replicate 2 (s.monthly_rent + s.monthly_living_cost)) := by
  obtain ⟨e1, e2, e3, e4, e5, e6, e7, e8, e9, e10⟩ := init_fields h
  have hrent : centMult s.monthly_rent := get_rent_by_type_centMult e10
  have hliv : centMult s.monthly_living_cost := by
    rw [e9]
    exact (get_city_data_centMult e8).2.2.2
  have hbase : centMult (s.monthly_rent + s.monthly_living_cost) :=
    centMult_add hrent hliv
  have hbr : round2 (s.monthly_rent + s.monthly_living_cost) =
      s.monthly_rent + s.monthly_living_cost := round2_eq_self hbase
  unfold StudyCostCalculator.calculate_cashflow
  rw [cashflowAux_map_expense, month_names_enum]
  constructor
  · intro hp
    simp only [List.map_cons, List.map_nil]
    rw [monthExpense_lumpSum_zero hp,
      @monthExpense_lumpSum_pos s hp 1 (by decide),
      @monthExpense_lumpSum_pos s hp 2 (by decide),
      @monthExpense_lumpSum_pos s hp 3 (by decide),
      @monthExpense_lumpSum_pos s hp 4 (by decide),
      @monthExpense_lumpSum_pos s hp 5 (by decide),
      @monthExpense_lumpSum_pos s hp 6 (by decide),
      @monthExpense_lumpSum_pos s hp 7 (by decide),
      @monthExpense_lumpSum_pos s hp 8 (by decide),
      @monthExpense_lumpSum_pos s hp 9 (by decide),
      @monthExpense_lumpSum_pos s hp 10 (by decide),
      @monthExpense_lumpSum_pos s hp 11 (by decide)]
    simp only [hbr]
    rfl
  · intro hp
    have hpm : p.tuition_payment = "分期" := by
      rw [← e3]
      exact hp
    have htm : s.tuition_monthly = round2 (p.tuition_total / 10) := by
      rw [e7]
      unfold _calculate_tuition_monthly
      rw [hpm]
      rw [if_neg (by decide), if_pos rfl]
      norm_num [TUITION_PAYMENT_MONTHS]
    have htmc : centMult s.tuition_monthly := by
      rw [htm]
      exact round2_centMult _
    have hbt : round2 (s.monthly_rent + s.monthly_living_cost + s.tuition_monthly) =
        s.monthly_rent + s.monthly_living_cost + s.tuition_monthly :=
      round2_eq_self (centMult_add hbase htmc)
    simp only [List.map_cons, List.map_nil]
    rw [@monthExpense_installment_lt s hp 0 (by decide),
      @monthExpense_installment_lt s hp 1 (by decide),
      @monthExpense_installment_lt s hp 2 (by decide),
      @monthExpense_installment_lt s hp 3 (by decide),
      @monthExpense_installment_lt s hp 4 (by decide),
      @monthExpense_installment_lt s hp 5 (by decide),
      @monthExpense_installment_lt s hp 6 (by decide),
      @monthExpense_installment_lt s hp 7 (by decide),
      @monthExpense_installment_lt s hp 8 (by decide),
      @monthExpense_installment_lt s hp 9 (by decide),
      @monthExpense_installment_ge s hp 10 (by decide),
      @monthExpense_installment_ge s hp 11 (by decide)]
    simp only [hbt, hbr]
    simp only [htm]
    rfl

set_option maxRecDepth 4000 in
/-- C7: the "row 0 includes the full tuitionTotal" reading fails for a
sub-cent tuition: with tuitionTotal = 0.004 under lumpSum, every stored
expense equals 600, so no row's expense contains the full tuition and row 0
does not differ from the others. -/
theorem c7_tuition_placement_counterexample :
    (StudyCostCalculator.init tinyTuitionParams).map
        (fun s => s.calculate_cashflow.map Row.expense) =
      Except.ok (List.replicate 12 600) ∧
    (600 : ℚ) ≠ 250 + 350 + 1/250 :=
  ⟨by rfl, by decide⟩

/-- Witness for C7 at the concrete Lisbon lump-sum scenario. -/
theorem c7_tuition_placement_witness :
    lisbonLumpSumCalc.calculate_cashflow.map Row.expense =
      round2 (lisbonLumpSumCalc.monthly_rent +
          lisbonLumpSumCalc.monthly_living_cost +
          lisbonLumpSumCalc.tuition_total) ::
        List.replicate 11
          (lisbonLumpSumCalc.monthly_rent +
            lisbonLumpSumCalc.monthly_living_cost) :=
  (c7_tuition_placement lisbonLumpSumParams lisbonLumpSumCalc (by rfl)).1 (by rfl)
